import Mathlib

/-!
Shallow embedding of the knode CLI (src/knode/kubectl.py, nodes.py, aws.py,
cli.py) and proofs about its node/pod classification, filtering, drain
progress tracking and scaling logic.

External subprocess calls (kubectl / aws) are modelled by explicit
parameters: a completed-process result is a `ProcResult`, a parsed JSON
document is passed as an `Option` of a record type holding exactly the
fields the code reads (`none` models a fetch or parse failure), and a
long-running drain process is modelled by the list of lines it emits plus
its exit code.  Functions that the specification requires to avoid an
external call are instrumented with an invocation counter in their result.
Python strings are Lean `String`s; `str.lower` is modelled ASCII-wise via
`Char.toLower`; the substring test `pat in s` is modelled by an explicit
infix search on character lists.
-/

namespace Knode

/-- Truthiness of an optional string, as Python evaluates
`labels.get(k)`: `None` and the empty string are falsy. -/
def truthyS : Option String → Bool
  | none => false
  | some s => s ≠ ""

/-- Python `x or default` for an optional string: the value when truthy,
otherwise the default. -/
def pyOrS (o : Option String) (d : String) : String :=
  if truthyS o then o.getD "" else d

/-- Models Python `str.lower` (ASCII case folding, which is all the label
values and drain output in question use). -/
def pyLower (s : String) : String := ⟨s.toList.map Char.toLower⟩

/-- Whether `pat` occurs as a contiguous infix of a character list. -/
def listHasInfix (pat : List Char) : List Char → Bool
  | [] => decide (pat = [])
  | c :: rest => pat.isPrefixOf (c :: rest) || listHasInfix pat rest

/-- Models the Python substring test `pat in s`. -/
def strIn (pat s : String) : Bool := listHasInfix pat.toList s.toList

/-- Models Python `s.replace("_", "-")`: a single-character pattern, so a
character-wise map. -/
def pyReplaceUS (s : String) : String :=
  ⟨s.toList.map (fun c => if c = '_' then '-' else c)⟩

/-- Python `set.add` on a set modelled as a duplicate-free list kept in
insertion order (Python set iteration order is unspecified; the model
fixes insertion order, and all claims about it are set-level). -/
def setAdd (s : List String) (x : String) : List String :=
  if x ∈ s then s else s ++ [x]

/-- A completed external process: `subprocess.CompletedProcess` with
`returncode`, `stdout`, `stderr` (text mode). -/
structure ProcResult where
  returncode : Int
  stdout : String
  stderr : String
deriving DecidableEq, Repr

/-- `result.stderr if result.stderr else result.stdout`, followed by
`output or ""` (which is the identity on a non-`None` string). -/
def pickOutput (r : ProcResult) : String :=
  if r.stderr ≠ "" then r.stderr else r.stdout

/-- One entry of `metadata.ownerReferences`; `kind` is `none` when the
reference record lacks the key (`ref.get("kind")`). -/
structure OwnerRef where
  kind : Option String
deriving DecidableEq, Repr

/-- One entry of `status.containerStatuses`, holding the fields the code
reads: `restartCount` and the nested `state.waiting.reason` path (flattened;
`none` models any missing link of the path). -/
structure ContainerStatus where
  restartCount : Option Int
  waiting_reason : Option String
deriving DecidableEq, Repr

/-- The fields of one raw pod item (`kubectl get pods -o json` element)
that the code reads. `ownerReferences` defaults to `[]` in the source
(`metadata.get("ownerReferences", [])`), so it is a plain list here. -/
structure PodRecord where
  metadata_namespace : Option String
  metadata_name : Option String
  ownerReferences : List OwnerRef
  spec_nodeName : Option String
  status_phase : Option String
  containerStatuses : List ContainerStatus
deriving DecidableEq, Repr

/-- `any(ref.get("kind") == "DaemonSet" for ref in owner_refs)`. -/
def ownedByDaemonSet (refs : List OwnerRef) : Bool :=
  refs.any (fun r => r.kind = some "DaemonSet")

/-- kubectl.py `count_pods_on_nodes`: count pods (excluding DaemonSet) on
the given nodes.  `res` is the result of the `kubectl get pods -A -o json`
invocation and `parsed` the outcome of `json.loads(res.stdout)` (`none`
when the output is unparseable).  Returns the count together with the
number of external kubectl invocations performed. -/
def count_pods_on_nodes (node_names : List String) (res : ProcResult)
    (parsed : Option (List PodRecord)) : Nat × Nat :=
  if node_names = [] then (0, 0)
  else if res.returncode ≠ 0 ∨ res.stdout = "" then (0, 1)
  else match parsed with
    | none => (0, 1)
    | some items =>
        (items.foldl (fun acc item =>
          if (item.spec_nodeName.getD "") ∈ node_names then
            (if ownedByDaemonSet item.ownerReferences then acc else acc + 1)
          else acc) 0, 1)

/-- The indeterminate progress message returned when the total is
unknown or non-positive. -/
def indeterminateMsg : String := "Draining... (evicting pods)"

/-- `min(1.0, evicted / total)` from `_format_progress`, with the float
arithmetic modelled over ℚ (only reached when `total > 0`). -/
def progressPct (evicted : Nat) (total : Int) : ℚ :=
  min 1 ((evicted : ℚ) / (total : ℚ))

/-- `int(width * pct)` from `_format_progress`: truncation, which equals
the floor for the non-negative values that occur. -/
def progressFilled (evicted : Nat) (total : Int) (width : Nat) : Nat :=
  (Int.floor ((width : ℚ) * progressPct evicted total)).toNat

/-- `c * n` string repetition. -/
def strRepeat (c : Char) (n : Nat) : String := ⟨List.replicate n c⟩

/-- Python `str.ljust`. -/
def ljust (s : String) (w : Nat) : String :=
  s ++ strRepeat ' ' (w - s.length)

/-- kubectl.py `_format_progress`: format a progress bar string. -/
def _format_progress (evicted : Nat) (total : Int) (width : Nat) : String :=
  if total ≤ 0 then indeterminateMsg
  else
    let filled := progressFilled evicted total width
    let arrow : Nat := if filled < width ∧ (evicted : Int) < total then 1 else 0
    let bar := ljust (strRepeat '=' filled ++ strRepeat '>' arrow) width
    "Draining... [" ++ bar ++ "] " ++ toString evicted ++ "/" ++
      toString total ++ " pods evicted"

/-- kubectl.py `cordon_nodes`; `run` models `run_kubectl`.  Returns
`((returncode, output), invocation count)`. -/
def cordon_nodes (node_names : List String)
    (run : List String → ProcResult) : (Int × String) × Nat :=
  if node_names = [] then ((0, ""), 0)
  else
    let r := run (["cordon"] ++ node_names)
    ((r.returncode, pickOutput r), 1)

/-- kubectl.py `uncordon_nodes`; `run` models `run_kubectl`. -/
def uncordon_nodes (node_names : List String)
    (run : List String → ProcResult) : (Int × String) × Nat :=
  if node_names = [] then ((0, ""), 0)
  else
    let r := run (["uncordon"] ++ node_names)
    ((r.returncode, pickOutput r), 1)

/-- The eviction-line test from `read_output`:
`"pod/" in line and " evicted" in line.lower()`. -/
def isEvictionLine (line : String) : Bool :=
  strIn "pod/" line && strIn " evicted" (pyLower line)

/-- kubectl.py `read_output` (the reader-thread body in `drain_nodes`):
consume the process's lines in order, buffering every line and bumping the
eviction counter on each matching line.  Returns the final counter and the
buffered lines. -/
def read_output (lines : List String) : Nat × List String :=
  lines.foldl (fun st line =>
    (if isEvictionLine line then st.1 + 1 else st.1, st.2 ++ [line])) (0, [])

/-- The keyword flags of `drain_nodes`. -/
structure DrainFlags where
  ignore_daemonsets : Bool
  delete_emptydir_data : Bool
  ignore_errors : Bool
  show_progress : Bool
deriving DecidableEq, Repr

/-- The external world seen by one `drain_nodes` call: `run` answers the
synchronous no-progress invocation, `pods_result`/`pods_items` answer the
`count_pods_on_nodes` query, and `drain_lines`/`drain_exit` are the
streamed output lines and exit code of the drain subprocess. -/
structure DrainWorld where
  run : List String → ProcResult
  pods_result : ProcResult
  pods_items : Option (List PodRecord)
  drain_lines : List String
  drain_exit : Int

/-- The argument list built by `drain_nodes`. -/
def drainArgs (fl : DrainFlags) (node_names : List String) : List String :=
  ["drain"]
    ++ (if fl.ignore_daemonsets then ["--ignore-daemonsets"] else [])
    ++ (if fl.delete_emptydir_data then ["--delete-emptydir-data"] else [])
    ++ (if fl.ignore_errors then ["--ignore-errors"] else [])
    ++ node_names

/-- kubectl.py `drain_nodes`.  Returns `((returncode, output), external
invocation count)`.  In progress mode the output is the concatenation of
the buffered lines and the exit code is the subprocess's
(`proc.returncode or 0`, with the returncode already set after the poll
loop). -/
def drain_nodes (node_names : List String) (fl : DrainFlags)
    (w : DrainWorld) : (Int × String) × Nat :=
  if node_names = [] then ((0, ""), 0)
  else if fl.show_progress = false then
    let r := w.run (drainArgs fl node_names)
    ((r.returncode, pickOutput r), 1)
  else
    let c := count_pods_on_nodes node_names w.pods_result w.pods_items
    let ro := read_output w.drain_lines
    ((w.drain_exit, String.join ro.2), c.2 + 1)

/-- A node's label mapping (`metadata.labels`), a string-keyed dict
modelled as an association list with unique keys. -/
def Labels : Type := List (String × String)

/-- `labels.get(k)`. -/
def labelsGet (l : Labels) (k : String) : Option String :=
  List.lookup k l

/-- nodes.py `_capacity_type`: derive capacity type (spot, on-demand,
fargate) from the label cascade. -/
def _capacity_type (labels : Labels) : String :=
  let c1 := labelsGet labels "karpenter.sh/capacity-type"
  if truthyS c1 then c1.getD ""
  else
    let c2 := labelsGet labels "eks.amazonaws.com/capacityType"
    if truthyS c2 then pyLower (pyReplaceUS (c2.getD ""))
    else (labelsGet labels "eks.amazonaws.com/compute-type").getD ""

/-- nodes.py `_is_in_nodegroup`:
`bool(labels.get("eks.amazonaws.com/nodegroup"))`. -/
def _is_in_nodegroup (labels : Labels) : Bool :=
  truthyS (labelsGet labels "eks.amazonaws.com/nodegroup")

/-- The captype computation inlined in `NodeInfo.from_dict` (nodes.py
lines 70-74): `NG/` prefix for managed node groups, `-` placeholder for an
empty derived tag. -/
def nodeCaptype (labels : Labels) : String :=
  let ctype := _capacity_type labels
  if _is_in_nodegroup labels ∧ ctype ≠ "" then "NG/" ++ ctype
  else if ctype = "" then "-" else ctype

/-- One entry of a node's `status.conditions`: the code indexes
`c["type"]` directly (so the field is required) and reads
`c.get("status")`. -/
structure NodeCondition where
  cond_type : String
  cond_status : Option String
deriving DecidableEq, Repr

/-- The fields of one raw node item (`kubectl get nodes -o json` element)
that `NodeInfo.from_dict` reads. `unschedulable` is the truthiness of
`spec.get("unschedulable")`. -/
structure NodeRecord where
  metadata_name : Option String
  labels : Labels
  unschedulable : Bool
  conditions : List NodeCondition

/-- nodes.py `NodeInfo`: minimal node info for display and selection. -/
structure NodeInfo where
  name : String
  status : String
  instance_type : String
  zone : String
  captype : String
  unschedulable : Bool
deriving DecidableEq, Repr

/-- nodes.py `NodeInfo.from_dict`. -/
def NodeInfo.from_dict (obj : NodeRecord) : NodeInfo :=
  let status_parts :=
    (obj.conditions.filter (fun c => c.cond_status = some "True")).map
      (fun c => c.cond_type)
  let status_parts :=
    status_parts ++ (if obj.unschedulable then ["NoSchedule"] else [])
  let labels := obj.labels
  { name := obj.metadata_name.getD ""
    status := String.intercalate "," status_parts
    instance_type :=
      pyOrS (labelsGet labels "node.kubernetes.io/instance-type")
        (pyOrS (labelsGet labels "beta.kubernetes.io/instance-type") "")
    zone := (labelsGet labels "topology.kubernetes.io/zone").getD ""
    captype := nodeCaptype labels
    unschedulable := obj.unschedulable }

/-- nodes.py `PodInfo`: minimal pod info for display.  The source field
`namespace` is a Lean keyword and is called `nspace` here. -/
structure PodInfo where
  nspace : String
  name : String
  status : String
  node : String
  restarts : Int
  is_daemonset : Bool
deriving DecidableEq, Repr

/-- nodes.py `PodInfo.from_dict`. -/
def PodInfo.from_dict (obj : PodRecord) : PodInfo :=
  let phase0 := obj.status_phase.getD "Unknown"
  let restarts :=
    obj.containerStatuses.foldl (fun a cs => a + cs.restartCount.getD 0) 0
  let phase :=
    match obj.containerStatuses.find?
        (fun cs => (cs.waiting_reason.getD "") ≠ "") with
    | some cs => cs.waiting_reason.getD ""
    | none => phase0
  { nspace := obj.metadata_namespace.getD ""
    name := obj.metadata_name.getD ""
    status := phase
    node := obj.spec_nodeName.getD ""
    restarts := restarts
    is_daemonset := ownedByDaemonSet obj.ownerReferences }

/-- The sort key of `get_pods_for_nodes`: the Python tuple
`(p.node, p.namespace, p.name)` under lexicographic comparison. -/
def podKey (p : PodInfo) : Lex (String × Lex (String × String)) :=
  toLex (p.node, toLex (p.nspace, p.name))

/-- Boolean comparison used for the sort. -/
def podLe (p q : PodInfo) : Bool := decide (podKey p ≤ podKey q)

/-- nodes.py `get_pods_for_nodes`: fetch pods running on the given nodes.
`fetch` models the parsed `get_pods_json()` document's item list (`none`
when the fetch fails or parses to nothing).  Returns the result (or the
raised error message) together with the number of inventory queries
performed. -/
def get_pods_for_nodes (node_names : List String)
    (include_daemonsets : Bool) (fetch : Option (List PodRecord)) :
    Except String (List PodInfo) × Nat :=
  if node_names = [] then (Except.ok [], 0)
  else match fetch with
    | none =>
        (Except.error
          "Failed to get pods. Ensure cluster context is set (e.g. set-clus staging).",
          1)
    | some items =>
        let pods := (items.map PodInfo.from_dict).filter
          (fun p => p.node ∈ node_names ∧ (p.is_daemonset → include_daemonsets))
        (Except.ok (pods.mergeSort podLe), 1)

/-- cli.py `_resolve_nodes`: resolve node names from explicit args and/or
a captype filter.  `fetch` models `get_all_nodes()` (`none` = failure);
`none` in the result models the `sys.exit(1)` taken when the filter is
requested and the fetch fails.  The Python set is modelled as an
insertion-ordered duplicate-free list. -/
def _resolve_nodes (node_args : List String) (captype : Option String)
    (fetch : Option (List NodeInfo)) : Option (List String) :=
  let result := node_args.foldl setAdd []
  if truthyS captype then
    match fetch with
    | none => none
    | some all_nodes =>
        some (all_nodes.foldl (fun acc n =>
          if n.captype = captype.getD "" then setAdd acc n.name else acc)
          result)
  else some result

/-- The distinct terminal outcomes of the `pods` command. -/
inductive PodsOutcome where
  /-- "No nodes specified" usage error. -/
  | usage : PodsOutcome
  /-- a node or pod inventory fetch failed. -/
  | qerror : PodsOutcome
  /-- "Unknown node(s): ..." validation error. -/
  | unknownNodes (ns : List String) : PodsOutcome
  /-- "No pods found on the specified node(s)." -/
  | noPods : PodsOutcome
  /-- normal listing. -/
  | listed (pods : List PodInfo) : PodsOutcome
deriving DecidableEq, Repr

/-- cli.py `pods_cmd`: the control flow of the `pods` command.
`nodesFetch` models `get_all_nodes()` (used both by `_resolve_nodes` and
for the existence validation) and `podsFetch` models `get_pods_json()`.
Returns the outcome together with the number of pod-inventory fetches
performed. -/
def pods_cmd (node_args : List String) (captype : Option String)
    (include_daemonsets : Bool) (nodesFetch : Option (List NodeInfo))
    (podsFetch : Option (List PodRecord)) : PodsOutcome × Nat :=
  match _resolve_nodes node_args captype nodesFetch with
  | none => (PodsOutcome.qerror, 0)
  | some node_list =>
    if node_list = [] then (PodsOutcome.usage, 0)
    else match nodesFetch with
      | none => (PodsOutcome.qerror, 0)
      | some all_nodes =>
          let known := all_nodes.map (fun n => n.name)
          let unknown := node_list.filter (fun n => n ∉ known)
          if unknown ≠ [] then (PodsOutcome.unknownNodes unknown, 0)
          else match get_pods_for_nodes node_list include_daemonsets podsFetch with
            | (Except.error _, q) => (PodsOutcome.qerror, q)
            | (Except.ok pods, q) =>
                if pods = [] then (PodsOutcome.noPods, q)
                else (PodsOutcome.listed pods, q)

/-- aws.py `NodeGroupInfo`: scaling and metadata for an EKS managed node
group. -/
structure NodeGroupInfo where
  name : String
  status : String
  capacity_type : String
  min_size : Int
  max_size : Int
  desired_size : Int
deriving DecidableEq, Repr

/-- The fields of a `describe-nodegroup` response (`nodegroup` object with
its `scalingConfig`) that the code reads; each is `none` when the key is
absent. -/
structure NodeGroupRecord where
  nodegroupName : Option String
  status : Option String
  capacityType : Option String
  scaling_minSize : Option Int
  scaling_maxSize : Option Int
  scaling_desiredSize : Option Int
deriving DecidableEq, Repr

/-- aws.py `get_nodegroup_info`; `data` models the result of
`describe_nodegroup` (`none` = describe failed or unparseable). -/
def get_nodegroup_info (nodegroup_name : String)
    (data : Option NodeGroupRecord) : Option NodeGroupInfo :=
  match data with
  | none => none
  | some ng =>
      let raw_cap := ng.capacityType
      some
        { name := ng.nodegroupName.getD nodegroup_name
          status := ng.status.getD "UNKNOWN"
          capacity_type :=
            if truthyS raw_cap then pyLower (pyReplaceUS (raw_cap.getD ""))
            else ""
          min_size := ng.scaling_minSize.getD 0
          max_size := ng.scaling_maxSize.getD 0
          desired_size := ng.scaling_desiredSize.getD 0 }

/-- The `--scaling-config` string built by `update_nodegroup_scaling`. -/
def scalingConfigString (m M d : Int) : String :=
  "minSize=" ++ toString m ++ ",maxSize=" ++ toString M ++
    ",desiredSize=" ++ toString d

/-- aws.py `update_nodegroup_scaling`.  `data` models the describe result
consumed by `get_nodegroup_info`; `runUpdate` models the
`update-nodegroup-config` invocation, keyed on the scaling-config string.
Returns `((returncode, output), issued scaling triple)`, where the triple
is `none` exactly when no update request was issued. -/
def update_nodegroup_scaling (nodegroup_name : String)
    (data : Option NodeGroupRecord)
    (min_size max_size desired_size : Option Int)
    (runUpdate : String → ProcResult) :
    (Int × String) × Option (Int × Int × Int) :=
  match get_nodegroup_info nodegroup_name data with
  | none => ((1, "Could not describe node group " ++ nodegroup_name), none)
  | some current =>
      let min_s := min_size.getD current.min_size
      let max_s := max_size.getD current.max_size
      let desired_s := desired_size.getD current.desired_size
      let r := runUpdate (scalingConfigString min_s max_s desired_s)
      ((r.returncode, pickOutput r), some (min_s, max_s, desired_s))

/-- Boolean string comparison used by `sorted(names)`. -/
def strLe (a b : String) : Bool := decide (a ≤ b)

/-- cli.py `scale_cmd`, final loop (lines 554-565): for each targeted
group (in sorted order) run the scaling update, collect the per-group
`(returncode, message)` results, and exit non-zero when at least one
group failed.  `describeF` models `describe_nodegroup` per group and
`runUpdate` the update invocation per group and scaling string. -/
def scale_cmd_loop (names : List String)
    (describeF : String → Option NodeGroupRecord)
    (min_size max_size desired_size : Option Int)
    (runUpdate : String → String → ProcResult) :
    List (String × (Int × String)) × Int :=
  let sortedNames := names.mergeSort strLe
  let step := fun (st : List (String × (Int × String)) × Nat) ng =>
    let r := (update_nodegroup_scaling ng (describeF ng) min_size max_size
      desired_size (runUpdate ng)).1
    (st.1 ++ [(ng, r)], if r.1 ≠ 0 then st.2 + 1 else st.2)
  let final := sortedNames.foldl step ([], 0)
  (final.1, if final.2 ≠ 0 then 1 else 0)

/-! Concrete inputs used to witness the theorems below. -/

/-- Five streamed drain lines: three matching the eviction pattern (one
only up to the marker's case) and two not. -/
def exampleDrainLines : List String :=
  ["pod/a evicted\n", "node/n cordoned\n", "pod/b evicted\n",
   "draining node\n", "pod/c EVICTED\n"]

/-- A drain world whose subprocess emits `exampleDrainLines`. -/
def exampleDrainWorld : DrainWorld :=
  { run := fun _ => ⟨0, "", ""⟩
    pods_result := ⟨0, "x", ""⟩
    pods_items := some []
    drain_lines := exampleDrainLines
    drain_exit := 0 }

/-- Labels with a non-empty capacity-type label and a present but empty
managed-group membership label. -/
def c2Labels : Labels :=
  [("karpenter.sh/capacity-type", "spot"), ("eks.amazonaws.com/nodegroup", "")]

/-- Labels with the underscore-cased secondary label and a non-empty
managed-group membership label. -/
def c2wLabels : Labels :=
  [("eks.amazonaws.com/capacityType", "ON_DEMAND"),
   ("eks.amazonaws.com/nodegroup", "main")]

/-- Two raw pod records on node `n1` (one daemon-managed) and one on
node `n2`. -/
def c3Items : List PodRecord :=
  [{ metadata_namespace := some "kube-system", metadata_name := some "ds-1"
     ownerReferences := [⟨some "DaemonSet"⟩], spec_nodeName := some "n1"
     status_phase := some "Running", containerStatuses := [] },
   { metadata_namespace := some "app", metadata_name := some "web-1"
     ownerReferences := [⟨some "ReplicaSet"⟩], spec_nodeName := some "n1"
     status_phase := some "Running", containerStatuses := [] },
   { metadata_namespace := some "app", metadata_name := some "web-2"
     ownerReferences := [], spec_nodeName := some "n2"
     status_phase := some "Pending", containerStatuses := [] }]

/-- A node inventory with a single spot node. -/
def c4Nodes : List NodeInfo :=
  [{ name := "spot-1", status := "Ready", instance_type := "m5.large"
     zone := "us-east-1a", captype := "spot", unschedulable := false }]

/-- A describe-nodegroup record with scaling triple (1, 5, 3). -/
def c7Record : NodeGroupRecord :=
  { nodegroupName := some "main", status := some "ACTIVE"
    capacityType := some "SPOT", scaling_minSize := some 1
    scaling_maxSize := some 5, scaling_desiredSize := some 3 }

/-- An update invocation that always succeeds with empty output. -/
def okRun : String → ProcResult := fun _ => ⟨0, "", ""⟩

/-- A describe function for groups a, b, c where only `b` fails to
describe. -/
def c8Describe : String → Option NodeGroupRecord := fun g =>
  if g = "b" then none else some c7Record

end Knode

namespace Knode

/-! Helper lemmas. -/

theorem read_output_foldl (lines : List String) (n : Nat) (acc : List String) :
    lines.foldl (fun st line =>
        (if isEvictionLine line then st.1 + 1 else st.1, st.2 ++ [line])) (n, acc)
      = (n + lines.countP isEvictionLine, acc ++ lines) := by
  induction lines generalizing n acc with
  | nil => simp
  | cons l ls ih =>
      simp only [List.foldl_cons, List.countP_cons, ih]
      by_cases h : isEvictionLine l
      · simp only [h, if_true, Prod.mk.injEq]
        exact ⟨by omega, by simp⟩
      · simp [h]

theorem read_output_spec (lines : List String) :
    read_output lines = (lines.countP isEvictionLine, lines) := by
  simpa using read_output_foldl lines 0 []

/-- Claim C1: for every finite sequence of lines emitted by the drain
process, the reader's final eviction count equals the number of lines
containing the pod marker and (case-insensitively) the eviction marker,
and the captured output of `drain_nodes` in progress mode is the
concatenation of all emitted lines in emission order; in particular, for a
process emitting three matching and two non-matching lines the count is 3
and the output holds all five lines in order. -/
theorem C1_drain_stream_accounting :
    (∀ lines : List String,
        read_output lines = (lines.countP isEvictionLine, lines)) ∧
    (∀ (names : List String) (fl : DrainFlags) (w : DrainWorld),
        names ≠ [] → fl.show_progress = true →
        (drain_nodes names fl w).1.2 = String.join w.drain_lines) ∧
    read_output exampleDrainLines = (3, exampleDrainLines) := by
  refine ⟨read_output_spec, ?_, by decide⟩
  intro names fl w hne hp
  simp [drain_nodes, hne, hp, read_output_spec]

/-- Witness for C1 at a concrete drain world. -/
theorem C1_drain_stream_accounting_witness :
    (drain_nodes ["node-1"] ⟨true, true, false, true⟩ exampleDrainWorld).1.2
      = String.join exampleDrainLines :=
  C1_drain_stream_accounting.2.1 ["node-1"] ⟨true, true, false, true⟩
    exampleDrainWorld (by decide) rfl

/-- Claim C9: with an empty target node list, cordon, uncordon and drain
each return exit code 0 with empty output and perform no external
invocation. -/
theorem C9_empty_targets_noop (run : List String → ProcResult)
    (fl : DrainFlags) (w : DrainWorld) :
    cordon_nodes [] run = ((0, ""), 0) ∧
    uncordon_nodes [] run = ((0, ""), 0) ∧
    drain_nodes [] fl w = ((0, ""), 0) :=
  ⟨rfl, rfl, rfl⟩

/-- Claim C10: when the group's current configuration cannot be fetched,
the scaling update returns exit code 1 with a diagnostic message and
issues no update request (the issued triple is `none`). -/
theorem C10_describe_failure_no_update (name : String)
    (mins maxs des : Option Int) (run : String → ProcResult) :
    update_nodegroup_scaling name none mins maxs des run
      = ((1, "Could not describe node group " ++ name), none) := rfl

end Knode

namespace Knode

/-- Claim C2, counterexample: the membership label is present (with an
empty value) and the derived tag `spot` is non-empty, yet the capacity
type is `spot`, not `NG/spot` — presence alone does not trigger the
prefix. -/
theorem C2_capacity_classification_counterexample :
    labelsGet c2Labels "eks.amazonaws.com/nodegroup" = some "" ∧
    _capacity_type c2Labels = "spot" ∧
    nodeCaptype c2Labels = "spot" ∧
    ¬ nodeCaptype c2Labels = "NG/spot" := by decide

/-- Claim C2 (amended): the derived tag follows the cascade — the primary
capacity-type label's value when present and non-empty, otherwise the
secondary label's value with underscores replaced by hyphens and
lowercased when present and non-empty, otherwise the tertiary
compute-type label's value (even if empty, defaulting to the empty
string when absent); and the node's capacityType is the tag prefixed
with `NG/` when the managed-group membership label is present with a
non-empty value and the tag is non-empty, the bare tag when the
membership label is absent or empty, and the placeholder `-` when the
tag is empty.  The classification is a total Lean function, hence never
fails. -/
theorem C2_capacity_classification (l : Labels) :
    (∀ v, labelsGet l "karpenter.sh/capacity-type" = some v → v ≠ "" →
        _capacity_type l = v) ∧
    (truthyS (labelsGet l "karpenter.sh/capacity-type") = false →
      ∀ v, labelsGet l "eks.amazonaws.com/capacityType" = some v → v ≠ "" →
        _capacity_type l = pyLower (pyReplaceUS v)) ∧
    (truthyS (labelsGet l "karpenter.sh/capacity-type") = false →
      truthyS (labelsGet l "eks.amazonaws.com/capacityType") = false →
        _capacity_type l = (labelsGet l "eks.amazonaws.com/compute-type").getD "") ∧
    (_is_in_nodegroup l = true → _capacity_type l ≠ "" →
        nodeCaptype l = "NG/" ++ _capacity_type l) ∧
    (_is_in_nodegroup l = false → _capacity_type l ≠ "" →
        nodeCaptype l = _capacity_type l) ∧
    (_capacity_type l = "" → nodeCaptype l = "-") := by
  refine ⟨?_, ?_, ?_, ?_, ?_, ?_⟩
  · intro v hv hne
    have ht : truthyS (some v) = true := by simpa [truthyS] using hne
    simp [_capacity_type, hv, ht]
  · intro h1 v hv hne
    have ht : truthyS (some v) = true := by simpa [truthyS] using hne
    simp [_capacity_type, h1, hv, ht]
  · intro h1 h2
    simp [_capacity_type, h1, h2]
  · intro hng hne
    simp [nodeCaptype, hng, hne]
  · intro hng hne
    simp [nodeCaptype, hng, hne]
  · intro he
    simp [nodeCaptype, he]

/-- Witness for C2 at concrete label maps: the underscore-cased secondary
label is normalized and the non-empty membership label adds the prefix. -/
theorem C2_capacity_classification_witness :
    _capacity_type c2wLabels = "on-demand" ∧
    nodeCaptype c2wLabels = "NG/on-demand" := by
  have h := C2_capacity_classification c2wLabels
  have h1 : _capacity_type c2wLabels = pyLower (pyReplaceUS "ON_DEMAND") :=
    h.2.1 (by decide) "ON_DEMAND" (by decide) (by decide)
  have h2 : nodeCaptype c2wLabels = "NG/" ++ _capacity_type c2wLabels :=
    h.2.2.2.1 (by decide) (by decide)
  exact ⟨h1.trans (by decide), h2.trans (by rw [h1]; decide)⟩

end Knode

namespace Knode

theorem progressFilled_le (evicted : Nat) (total : Int) (width : Nat)
    (h : 0 < total) : progressFilled evicted total width ≤ width := by
  have hpct : progressPct evicted total ≤ 1 := min_le_left _ _
  have hpos : (0 : ℚ) ≤ progressPct evicted total := by
    have ht : (0 : ℚ) < (total : ℚ) := by exact_mod_cast h
    have : (0 : ℚ) ≤ (evicted : ℚ) / (total : ℚ) :=
      div_nonneg (Nat.cast_nonneg _) (le_of_lt ht)
    exact le_min (by norm_num) this
  have hle : (width : ℚ) * progressPct evicted total ≤ (width : ℚ) :=
    mul_le_of_le_one_right (Nat.cast_nonneg _) hpct
  have hf := Int.floor_le_floor hle
  rw [Int.floor_natCast] at hf
  exact Int.toNat_le.mpr hf

/-- Claim C5: progress display is best-effort and total — a failed target
count query (non-zero exit, empty output, or unparseable data) yields
total 0 rather than an error; any total at most 0 renders the
indeterminate message (the branch returns before any quotient is formed);
and for any positive total the bar fraction is clamped to at most 1, so
the filled cell count never exceeds the bar width. -/
theorem C5_progress_best_effort :
    (∀ (names : List String) (res : ProcResult)
        (parsed : Option (List PodRecord)),
        res.returncode ≠ 0 ∨ res.stdout = "" ∨ parsed = none →
        (count_pods_on_nodes names res parsed).1 = 0) ∧
    (∀ (evicted : Nat) (total : Int) (width : Nat), total ≤ 0 →
        _format_progress evicted total width = indeterminateMsg) ∧
    (∀ (evicted : Nat) (total : Int), 0 < total →
        progressPct evicted total ≤ 1) ∧
    (∀ (evicted : Nat) (total : Int) (width : Nat), 0 < total →
        progressFilled evicted total width ≤ width) := by
  refine ⟨?_, ?_, fun evicted total _ => min_le_left _ _, progressFilled_le⟩
  · intro names res parsed h
    unfold count_pods_on_nodes
    by_cases h1 : names = []
    · simp [h1]
    · simp only [h1, if_false]
      by_cases h2 : res.returncode ≠ 0 ∨ res.stdout = ""
      · simp [h2]
      · have hp : parsed = none := by
          rcases h with h | h | h
          · exact absurd (Or.inl h) h2
          · exact absurd (Or.inr h) h2
          · exact h
        simp [h2, hp]
  · intro evicted total width h
    simp [_format_progress, h]

/-- Witness for C5 at concrete inputs: a failed query counts 0, total 0
renders the indeterminate message, and an over-unity fraction still fills
at most the full bar. -/
theorem C5_progress_best_effort_witness :
    (count_pods_on_nodes ["n1"] ⟨1, "", ""⟩ none).1 = 0 ∧
    _format_progress 0 0 30 = indeterminateMsg ∧
    progressFilled 7 3 30 ≤ 30 :=
  ⟨C5_progress_best_effort.1 ["n1"] ⟨1, "", ""⟩ none (Or.inl (by decide)),
   C5_progress_best_effort.2.1 0 0 30 (by decide),
   C5_progress_best_effort.2.2.2 7 3 30 (by decide)⟩

/-- Claim C7: a scaling update issued for a group whose current
configuration was fetched carries explicit values for all of min, max and
desired, with each unsupplied field carried forward from the fetched
configuration; in particular an update supplying only the desired size
preserves the group's existing min and max. -/
theorem C7_scaling_carry_forward (nodegroup_name : String)
    (data : Option NodeGroupRecord) (mins maxs des : Option Int)
    (run : String → ProcResult) (current : NodeGroupInfo)
    (h : get_nodegroup_info nodegroup_name data = some current) :
    (update_nodegroup_scaling nodegroup_name data mins maxs des run).2
        = some (mins.getD current.min_size, maxs.getD current.max_size,
            des.getD current.desired_size) ∧
    ∀ d : Int,
      (update_nodegroup_scaling nodegroup_name data none none (some d) run).2
        = some (current.min_size, current.max_size, d) := by
  unfold update_nodegroup_scaling
  rw [h]
  exact ⟨rfl, fun _ => rfl⟩

/-- Witness for C7: scaling group `main` (current triple (1, 5, 3)) with
only a desired size of 0 issues the triple (1, 5, 0). -/
theorem C7_scaling_carry_forward_witness :
    (update_nodegroup_scaling "main" (some c7Record) none none (some 0)
        okRun).2 = some (1, 5, 0) :=
  (C7_scaling_carry_forward "main" (some c7Record) none none none okRun
    ⟨"main", "ACTIVE", "spot", 1, 5, 3⟩ (by decide)).2 0

end Knode

namespace Knode

theorem mem_setAdd {s : List String} {x y : String} :
    y ∈ setAdd s x ↔ y ∈ s ∨ y = x := by
  unfold setAdd
  by_cases h : x ∈ s
  · simp only [if_pos h]
    constructor
    · exact Or.inl
    · rintro (hy | rfl)
      · exact hy
      · exact h
  · simp [if_neg h]

theorem nodup_setAdd {s : List String} (x : String) (h : s.Nodup) :
    (setAdd s x).Nodup := by
  unfold setAdd
  by_cases hx : x ∈ s
  · simpa [hx]
  · simp [hx, List.nodup_append, h]

theorem toFinset_setAdd (s : List String) (x : String) :
    (setAdd s x).toFinset = insert x s.toFinset := by
  unfold setAdd
  by_cases hx : x ∈ s
  · rw [if_pos hx, Finset.insert_eq_self.mpr (List.mem_toFinset.mpr hx)]
  · rw [if_neg hx]
    ext y
    simp [or_comm]

theorem foldl_setAdd_toFinset (args : List String) (init : List String) :
    (args.foldl setAdd init).toFinset = init.toFinset ∪ args.toFinset := by
  induction args generalizing init with
  | nil => simp
  | cons a as ih =>
      rw [List.foldl_cons, ih, toFinset_setAdd]
      ext y
      simp
      try tauto

theorem foldl_setAdd_nodup (args : List String) (init : List String)
    (h : init.Nodup) : (args.foldl setAdd init).Nodup := by
  induction args generalizing init with
  | nil => simpa
  | cons a as ih => exact ih _ (nodup_setAdd a h)

theorem foldl_captypeAdd_toFinset (nodes : List NodeInfo) (c : String)
    (init : List String) :
    (nodes.foldl (fun acc n =>
        if n.captype = c then setAdd acc n.name else acc) init).toFinset
      = init.toFinset ∪
        ((nodes.filter (fun n => n.captype = c)).map
          (fun n => n.name)).toFinset := by
  induction nodes generalizing init with
  | nil => simp
  | cons n ns ih =>
      by_cases h : n.captype = c
      · rw [List.foldl_cons, if_pos h, ih, toFinset_setAdd]
        have : List.filter (fun n => decide (n.captype = c)) (n :: ns)
            = n :: List.filter (fun n => decide (n.captype = c)) ns := by
          simp [List.filter_cons, h]
        rw [this]
        ext y
        simp
        try tauto
      · rw [List.foldl_cons, if_neg h, ih]
        have : List.filter (fun n => decide (n.captype = c)) (n :: ns)
            = List.filter (fun n => decide (n.captype = c)) ns := by
          simp [List.filter_cons, h]
        rw [this]

theorem foldl_captypeAdd_nodup (nodes : List NodeInfo) (c : String)
    (init : List String) (h : init.Nodup) :
    (nodes.foldl (fun acc n =>
        if n.captype = c then setAdd acc n.name else acc) init).Nodup := by
  induction nodes generalizing init with
  | nil => simpa
  | cons n ns ih =>
      by_cases hc : n.captype = c
      · rw [List.foldl_cons, if_pos hc]
        exact ih _ (nodup_setAdd _ h)
      · rw [List.foldl_cons, if_neg hc]
        exact ih _ h

/-- Claim C4: `_resolve_nodes` returns the set union of the explicit
names (included verbatim, with no existence validation) and the names of
the inventory nodes whose capacityType equals the filter under exact
string equality; duplicates collapse; with no explicit names and no
filter the result is empty. -/
theorem C4_resolve_union (node_args : List String) (c : String)
    (nodes : List NodeInfo) (fetch : Option (List NodeInfo)) :
    _resolve_nodes [] none fetch = some [] ∧
    (∃ L, _resolve_nodes node_args none fetch = some L ∧ L.Nodup ∧
      L.toFinset = node_args.toFinset) ∧
    (c ≠ "" → ∃ L, _resolve_nodes node_args (some c) (some nodes) = some L ∧
      L.Nodup ∧
      L.toFinset = node_args.toFinset ∪
        ((nodes.filter (fun n => n.captype = c)).map
          (fun n => n.name)).toFinset) := by
  refine ⟨rfl, ?_, ?_⟩
  · refine ⟨node_args.foldl setAdd [], rfl,
      foldl_setAdd_nodup _ _ (by simp), ?_⟩
    simpa using foldl_setAdd_toFinset node_args []
  · intro hc
    have ht : truthyS (some c) = true := by simpa [truthyS] using hc
    have heq : _resolve_nodes node_args (some c) (some nodes)
        = some (nodes.foldl (fun acc n =>
            if n.captype = c then setAdd acc n.name else acc)
            (node_args.foldl setAdd [])) := by
      simp [_resolve_nodes, ht]
    refine ⟨_, heq,
      foldl_captypeAdd_nodup _ _ _ (foldl_setAdd_nodup _ _ (by simp)), ?_⟩
    rw [foldl_captypeAdd_toFinset, foldl_setAdd_toFinset]
    simp

/-- Witness for C4: explicit names with a duplicate plus a spot filter
over a one-node inventory resolve to the deduplicated union. -/
theorem C4_resolve_union_witness :
    ∃ L, _resolve_nodes ["a", "a", "b"] (some "spot") (some c4Nodes)
        = some L ∧ L.Nodup ∧
      L.toFinset = (["a", "a", "b"] : List String).toFinset ∪
        ((c4Nodes.filter (fun n => n.captype = "spot")).map
          (fun n => n.name)).toFinset :=
  (C4_resolve_union ["a", "a", "b"] "spot" c4Nodes none).2.2 (by decide)

end Knode

namespace Knode

theorem resolve_mem_args (node_args : List String) (captype : Option String)
    (nodes : List NodeInfo) :
    ∃ nl, _resolve_nodes node_args captype (some nodes) = some nl ∧
      ∀ x ∈ node_args, x ∈ nl := by
  have hbase : ∀ x ∈ node_args, x ∈ node_args.foldl setAdd [] := by
    intro x hx
    rw [← List.mem_toFinset, foldl_setAdd_toFinset]
    simp [hx]
  unfold _resolve_nodes
  by_cases ht : truthyS captype = true
  · refine ⟨_, by rw [if_pos ht], ?_⟩
    intro x hx
    rw [← List.mem_toFinset, foldl_captypeAdd_toFinset]
    exact Finset.mem_union_left _ (List.mem_toFinset.mpr (hbase x hx))
  · exact ⟨_, by rw [if_neg ht], hbase⟩

/-- Claim C6: a pods request naming a node absent from the current node
inventory terminates in the unknown-node validation outcome — an outcome
distinct from the no-pods outcome — and performs no pod-inventory fetch. -/
theorem C6_unknown_node_rejected (node_args : List String)
    (captype : Option String) (inc : Bool) (inv : List NodeInfo)
    (podsFetch : Option (List PodRecord)) (x : String)
    (hx : x ∈ node_args) (hunk : x ∉ inv.map (fun n => n.name)) :
    ∃ uns, uns ≠ [] ∧
      pods_cmd node_args captype inc (some inv) podsFetch
        = (PodsOutcome.unknownNodes uns, 0) := by
  obtain ⟨nl, hnl, hmem⟩ := resolve_mem_args node_args captype inv
  have hxnl : x ∈ nl := hmem x hx
  have hne : ¬ nl = [] := List.ne_nil_of_mem hxnl
  have hxu : x ∈ nl.filter (fun n => n ∉ inv.map (fun n => n.name)) :=
    List.mem_filter.mpr ⟨hxnl, by simpa using hunk⟩
  have hu : ¬ nl.filter (fun n => n ∉ inv.map (fun n => n.name)) = [] :=
    List.ne_nil_of_mem hxu
  refine ⟨nl.filter (fun n => n ∉ inv.map (fun n => n.name)), hu, ?_⟩
  unfold pods_cmd
  rw [hnl]
  simp only [hne, if_false]
  rw [if_pos hu]

end Knode

namespace Knode

/-- Witness for C6: requesting pods for unknown node `ghost` against a
one-node inventory ends in the unknown-node outcome with zero pod
fetches. -/
theorem C6_unknown_node_rejected_witness :
    ∃ uns, uns ≠ [] ∧
      pods_cmd ["ghost"] none false (some c4Nodes) none
        = (PodsOutcome.unknownNodes uns, 0) :=
  C6_unknown_node_rejected ["ghost"] none false c4Nodes none "ghost"
    (by decide) (by decide)

theorem podLe_trans (a b c : PodInfo) (h1 : podLe a b = true)
    (h2 : podLe b c = true) : podLe a c = true := by
  simp only [podLe, decide_eq_true_eq] at *
  exact le_trans h1 h2

theorem podLe_total (a b : PodInfo) : (podLe a b || podLe b a) = true := by
  rcases le_total (podKey a) (podKey b) with h | h <;> simp [podLe, h]

/-- Claim C3: `get_pods_for_nodes` returns exactly the parsed pods whose
node is in the requested set, excluding daemon-managed pods unless
`include_daemonsets` is set, sorted ascending by the lexicographic
(node, namespace, name) key; an empty requested set returns an empty
result without any inventory query. -/
theorem C3_pods_filter_sort (node_names : List String) (inc : Bool)
    (items : List PodRecord) :
    (∀ fetch, get_pods_for_nodes [] inc fetch = (Except.ok [], 0)) ∧
    (node_names ≠ [] →
      ∃ L, get_pods_for_nodes node_names inc (some items)
          = (Except.ok L, 1) ∧
        L.Perm ((items.map PodInfo.from_dict).filter
          (fun p => p.node ∈ node_names ∧ (p.is_daemonset → inc))) ∧
        List.Pairwise (fun a b => podLe a b = true) L ∧
        ∀ p, p ∈ L ↔ p ∈ items.map PodInfo.from_dict ∧
          p.node ∈ node_names ∧ (p.is_daemonset = true → inc = true)) := by
  constructor
  · intro fetch
    rfl
  · intro hne
    have heq : get_pods_for_nodes node_names inc (some items)
        = (Except.ok (((items.map PodInfo.from_dict).filter
            (fun p => p.node ∈ node_names ∧ (p.is_daemonset → inc))).mergeSort
              podLe), 1) := by
      simp [get_pods_for_nodes, hne]
    refine ⟨_, heq, List.mergeSort_perm _ _,
      List.sorted_mergeSort podLe_trans podLe_total _, ?_⟩
    intro p
    rw [List.mem_mergeSort, List.mem_filter]
    simp only [decide_eq_true_eq]

/-- Witness for C3: pods on nodes `n1` with daemon pods excluded. -/
theorem C3_pods_filter_sort_witness :
    ∃ L, get_pods_for_nodes ["n1"] false (some c3Items)
        = (Except.ok L, 1) ∧
      L.Perm ((c3Items.map PodInfo.from_dict).filter
        (fun p => p.node ∈ (["n1"] : List String) ∧
          (p.is_daemonset = true → (false : Bool) = true))) ∧
      List.Pairwise (fun a b => podLe a b = true) L ∧
      ∀ p, p ∈ L ↔ p ∈ c3Items.map PodInfo.from_dict ∧
        p.node ∈ (["n1"] : List String) ∧
          (p.is_daemonset = true → (false : Bool) = true) :=
  (C3_pods_filter_sort ["n1"] false c3Items).2 (by decide)

end Knode

namespace Knode

theorem scale_foldl_spec (f : String → Int × String) (l : List String)
    (acc : List (String × (Int × String))) (k : Nat) :
    l.foldl (fun st ng => (st.1 ++ [(ng, f ng)],
        if (f ng).1 ≠ 0 then st.2 + 1 else st.2)) (acc, k)
      = (acc ++ l.map (fun ng => (ng, f ng)),
          k + l.countP (fun ng => (f ng).1 ≠ 0)) := by
  induction l generalizing acc k with
  | nil => simp
  | cons a as ih =>
      simp only [List.foldl_cons, List.map_cons, List.countP_cons, ih]
      by_cases h : (f a).1 = 0
      · simp [h]
      · simp [h]
        try omega

theorem scale_cmd_loop_eq (names : List String)
    (describeF : String → Option NodeGroupRecord)
    (mins maxs des : Option Int)
    (runUpdate : String → String → ProcResult) :
    scale_cmd_loop names describeF mins maxs des runUpdate
      = ((names.mergeSort strLe).map (fun ng => (ng,
            (update_nodegroup_scaling ng (describeF ng) mins maxs des
              (runUpdate ng)).1)),
         if (names.mergeSort strLe).countP (fun ng =>
              (update_nodegroup_scaling ng (describeF ng) mins maxs des
                (runUpdate ng)).1.1 ≠ 0) ≠ 0
         then 1 else 0) := by
  unfold scale_cmd_loop
  show (let final := (names.mergeSort strLe).foldl (fun st ng =>
      (st.1 ++ [(ng, (update_nodegroup_scaling ng (describeF ng) mins maxs des
          (runUpdate ng)).1)],
        if (update_nodegroup_scaling ng (describeF ng) mins maxs des
            (runUpdate ng)).1.1 ≠ 0 then st.2 + 1 else st.2)) ([], 0)
    (final.1, if final.2 ≠ 0 then 1 else 0)) = _
  rw [scale_foldl_spec (fun ng =>
    (update_nodegroup_scaling ng (describeF ng) mins maxs des
      (runUpdate ng)).1) (names.mergeSort strLe) [] 0]
  simp

end Knode

namespace Knode

/-- Claim C8: the scaling loop yields one (exit code, message) result per
targeted group, a group that fails to describe contributes its own
failure entry without blocking the others, and the aggregate exit status
is non-zero exactly when at least one group's result failed. -/
theorem C8_scale_aggregate (names : List String)
    (describeF : String → Option NodeGroupRecord)
    (mins maxs des : Option Int)
    (runUpdate : String → String → ProcResult) :
    (scale_cmd_loop names describeF mins maxs des runUpdate).1.length
        = names.length ∧
    (∀ g ∈ names,
      (g, (update_nodegroup_scaling g (describeF g) mins maxs des
          (runUpdate g)).1)
        ∈ (scale_cmd_loop names describeF mins maxs des runUpdate).1) ∧
    (∀ g ∈ names, describeF g = none →
      (g, ((1 : Int), "Could not describe node group " ++ g))
        ∈ (scale_cmd_loop names describeF mins maxs des runUpdate).1) ∧
    ((scale_cmd_loop names describeF mins maxs des runUpdate).2 ≠ 0 ↔
      ∃ r ∈ (scale_cmd_loop names describeF mins maxs des runUpdate).1,
        r.2.1 ≠ 0) := by
  rw [scale_cmd_loop_eq]
  refine ⟨?_, ?_, ?_, ?_⟩
  · simp [List.length_mergeSort]
  · intro g hg
    exact List.mem_map_of_mem _ (List.mem_mergeSort.mpr hg)
  · intro g hg hnone
    have hmem : g ∈ names.mergeSort strLe :=
      (@List.mem_mergeSort String strLe g names).mpr hg
    have h2 := List.mem_map_of_mem (fun ng => (ng,
      (update_nodegroup_scaling ng (describeF ng) mins maxs des
        (runUpdate ng)).1)) hmem
    simp only [] at h2
    rw [hnone] at h2
    exact h2
  · by_cases hc : (names.mergeSort strLe).countP (fun ng =>
        (update_nodegroup_scaling ng (describeF ng) mins maxs des
          (runUpdate ng)).1.1 ≠ 0) = 0
    · constructor
      · intro h
        exact absurd (if_neg fun hn => hn hc) h
      · rintro ⟨r, hr, hne⟩
        obtain ⟨g, hg, rfl⟩ := List.mem_map.mp hr
        have hpos : 0 < (names.mergeSort strLe).countP (fun ng =>
            (update_nodegroup_scaling ng (describeF ng) mins maxs des
              (runUpdate ng)).1.1 ≠ 0) :=
          List.countP_pos_iff.mpr ⟨g, hg, by simpa using hne⟩
        omega
    · constructor
      · intro _
        obtain ⟨g, hg, hp⟩ := List.countP_pos_iff.mp (Nat.pos_of_ne_zero hc)
        exact ⟨(g, (update_nodegroup_scaling g (describeF g) mins maxs des
          (runUpdate g)).1), List.mem_map_of_mem _ hg, by simpa using hp⟩
      · intro _
        rw [if_pos hc]
        norm_num

/-- Witness for C8: scaling groups a, b, c where only b fails to
describe yields b's own failure entry and an aggregate failure status. -/
theorem C8_scale_aggregate_witness :
    ("b", ((1 : Int), "Could not describe node group " ++ "b"))
        ∈ (scale_cmd_loop ["a", "b", "c"] c8Describe none none (some 0)
            (fun _ => okRun)).1 ∧
    (scale_cmd_loop ["a", "b", "c"] c8Describe none none (some 0)
        (fun _ => okRun)).2 ≠ 0 := by
  have h := C8_scale_aggregate ["a", "b", "c"] c8Describe none none (some 0)
    (fun _ => okRun)
  have hb := h.2.2.1 "b" (by decide) (by decide)
  exact ⟨hb, h.2.2.2.mpr ⟨_, hb, by decide⟩⟩

end Knode
